import Mathlib

/-!
Shallow embedding of the ashpy GAN loss and discriminator glue code
(`ashpy/losses/gan.py`, `ashpy/models/convolutional/discriminators.py`).

Tensors are modelled as nested lists of rationals; the tensorflow
reductions used by the code (`reduce_mean` over given axes, `expand_dims`,
`add_n`, `ones_like`/`zeros_like`, `rank`) are implemented on that model.
Keras loss callables that the code merely passes around (binary
cross-entropy, mean squared error) stay abstract: the theorems quantify
over them.  Fallible code returns `Except String`.
-/

namespace Ashpy

/-- Result of `GANExecutor.get_discriminator_inputs`: the Python code
returns either a bare tensor or a Python list of tensors. -/
inductive DInputs (α : Type) where
  | single (t : α)
  | list (ts : List α)
deriving DecidableEq

/-- The part of `ashpy.contexts.GANContext` used by the loss code:
`discriminator_model.inputs` (only its length is read),
the discriminator model itself (it may return a single tensor or a list
of tensors, the multiscale case), and the optional `encoder_model`
(`hasattr(context, "encoder_model")` is modelled by `Option`).
Models take the tensor(s) and the `training` flag. -/
structure GANContext (α : Type) where
  discriminator_model_inputs : List Nat
  discriminator_model : DInputs α → Bool → α ⊕ List α
  encoder_model : Option (α → Bool → α)

/-- `GANExecutor.get_discriminator_inputs` from `ashpy/losses/gan.py`
lines 36-81: dispatch on `len(context.discriminator_model.inputs)` and on
the presence of `encoder_model`; the unsupported encoder arities raise
`ValueError`. -/
def get_discriminator_inputs {α : Type} (context : GANContext α)
    (fake_or_real condition : α) (training : Bool) :
    Except String (DInputs α) :=
  let num_inputs := context.discriminator_model_inputs.length
  match context.encoder_model with
  | some enc =>
      if num_inputs = 2 then
        .ok (.list [fake_or_real, enc fake_or_real training])
      else if num_inputs = 3 then
        .ok (.list [fake_or_real, enc fake_or_real training, condition])
      else
        .error "Context has encoder_model, but generator has wrong input count"
  | none =>
      if num_inputs = 2 then
        .ok (.list [fake_or_real, condition])
      else
        .ok (.single fake_or_real)

end Ashpy

namespace Ashpy

/-- `AdversarialLossType` enum (`gan.py` lines 25-27). -/
inductive AdversarialLossType where
  | GAN
  | LSGAN
deriving DecidableEq

/-- The `value` of each enum member: `GAN = 0`, `LSGAN = 1`. -/
def AdversarialLossType.value : AdversarialLossType → Int
  | .GAN => 0
  | .LSGAN => 1

/-- The argument of `get_adversarial_loss_generator` /
`get_adversarial_loss_discriminator` is `Union[AdversarialLossType, int]`.
Python `==` between an enum member and an int is always `False`, which the
disjoint sum captures. -/
inductive LossTypeArg where
  | enum (t : AdversarialLossType)
  | int (n : Int)
deriving DecidableEq

/-- The generator adversarial loss classes the factory can return. -/
inductive GenLossClass where
  | GeneratorBCE
  | GeneratorLSGAN
deriving DecidableEq

/-- The discriminator adversarial loss classes the factory can return. -/
inductive DiscLossClass where
  | DiscriminatorMinMax
  | DiscriminatorLSGAN
deriving DecidableEq

/-- `get_adversarial_loss_generator` (`gan.py` lines 580-605). -/
def get_adversarial_loss_generator (a : LossTypeArg) :
    Except String GenLossClass :=
  if a = .enum .GAN ∨ a = .int (AdversarialLossType.value .GAN) then
    .ok .GeneratorBCE
  else if a = .enum .LSGAN ∨ a = .int (AdversarialLossType.value .LSGAN) then
    .ok .GeneratorLSGAN
  else
    .error "Loss type not supported, the implemented losses are DiscriminatorMinMax or LSGAN"

/-- `get_adversarial_loss_discriminator` (`gan.py` lines 552-577). -/
def get_adversarial_loss_discriminator (a : LossTypeArg) :
    Except String DiscLossClass :=
  if a = .enum .GAN ∨ a = .int (AdversarialLossType.value .GAN) then
    .ok .DiscriminatorMinMax
  else if a = .enum .LSGAN ∨ a = .int (AdversarialLossType.value .LSGAN) then
    .ok .DiscriminatorLSGAN
  else
    .error "Loss type not supported, the implemented losses are DiscriminatorMinMax or LSGAN"

end Ashpy

namespace Ashpy

/-- The leaf loss executors appearing in `Pix2PixLoss` and
`Pix2PixLossSemantic`. -/
inductive BaseLoss where
  | GeneratorL1
  | CategoricalCrossEntropy
  | GeneratorBCE
  | GeneratorLSGAN
  | FeatureMatchingLoss
deriving DecidableEq

/-- Modelled from the spec: `ashpy.losses.executor.Executor` and
`SumExecutor` are imported by `gan.py` but their module is not among the
sources.  The spec describes them as "`Executor` objects that can be
added, scaled, and summed to build composite adversarial objectives" and
as "add/multiply `Executor` objects to build weighted sums of
tensor-producing callables".  `base` is a leaf loss executor, `scaled`
is `Executor.__mul__` (executor times weight), `sums` is `SumExecutor`. -/
inductive Executor where
  | base (b : BaseLoss)
  | scaled (e : Executor) (w : ℚ)
  | sums (es : List Executor)

mutual

/-- Modelled from the spec: the value of a composite executor is the
weighted sum of the values of its components ("weighted sums of
tensor-producing callables"); `env` gives the value of each leaf loss. -/
def evalExecutor (env : BaseLoss → ℚ) : Executor → ℚ
  | .base b => env b
  | .scaled e w => w * evalExecutor env e
  | .sums es => evalExecutorList env es

/-- Sum of the values of a list of executors. -/
def evalExecutorList (env : BaseLoss → ℚ) : List Executor → ℚ
  | [] => 0
  | e :: es => evalExecutor env e + evalExecutorList env es

end

/-- Leaf loss corresponding to each generator adversarial loss class. -/
def GenLossClass.toBaseLoss : GenLossClass → BaseLoss
  | .GeneratorBCE => .GeneratorBCE
  | .GeneratorLSGAN => .GeneratorLSGAN

/-- Instantiating a generator adversarial loss class (the Python call
`get_adversarial_loss_generator(adversarial_loss_type)()`). -/
def GenLossClass.instantiate (c : GenLossClass) : Executor :=
  .base c.toBaseLoss

/-- `Pix2PixLoss.__init__` (`gan.py` lines 308-339): build
`[GeneratorL1() * l1_loss_weight, adv() * adversarial_loss_weight]`,
append `FeatureMatchingLoss() * feature_matching_weight` when
`use_feature_matching_loss`, and hand the list to `SumExecutor`. -/
def Pix2PixLoss (l1_loss_weight adversarial_loss_weight
    feature_matching_weight : ℚ) (adversarial_loss_type : LossTypeArg)
    (use_feature_matching_loss : Bool) : Except String Executor := do
  let advCls ← get_adversarial_loss_generator adversarial_loss_type
  let executors := [Executor.scaled (.base .GeneratorL1) l1_loss_weight,
    Executor.scaled advCls.instantiate adversarial_loss_weight]
  let executors := if use_feature_matching_loss then
      executors ++ [Executor.scaled (.base .FeatureMatchingLoss)
        feature_matching_weight]
    else executors
  pure (Executor.sums executors)

/-- `Pix2PixLossSemantic.__init__` (`gan.py` lines 348-375): as
`Pix2PixLoss` but with `CategoricalCrossEntropy` in place of
`GeneratorL1`. -/
def Pix2PixLossSemantic (cross_entropy_weight adversarial_loss_weight
    feature_matching_weight : ℚ) (adversarial_loss_type : LossTypeArg)
    (use_feature_matching_loss : Bool) : Except String Executor := do
  let advCls ← get_adversarial_loss_generator adversarial_loss_type
  let executors := [Executor.scaled (.base .CategoricalCrossEntropy)
      cross_entropy_weight,
    Executor.scaled advCls.instantiate adversarial_loss_weight]
  let executors := if use_feature_matching_loss then
      executors ++ [Executor.scaled (.base .FeatureMatchingLoss)
        feature_matching_weight]
    else executors
  pure (Executor.sums executors)

end Ashpy

namespace Ashpy

/-- Tensors as nested lists of rationals: `s` is a scalar, `d` one
dimension whose entries are subtensors.  A well-formed rank-`k` tensor
has `k` nested layers of `d` around scalars. -/
inductive T where
  | s (x : ℚ)
  | d (ts : List T)

mutual

/-- Elementwise addition (`+` on tensors, also the body of `tf.add_n`).
On mismatched structure (which tensorflow would reject) the left
argument is returned. -/
def T.add : T → T → T
  | .s x, .s y => .s (x + y)
  | .d xs, .d ys => .d (T.addList xs ys)
  | t, _ => t

/-- Elementwise addition of two lists of tensors, pointwise. -/
def T.addList : List T → List T → List T
  | [], _ => []
  | _ :: _, [] => []
  | x :: xs, y :: ys => T.add x y :: T.addList xs ys

end

mutual

/-- Multiplication of every scalar entry by a constant
(`0.5 * tensor`, and the division inside a mean). -/
def T.smul (c : ℚ) : T → T
  | .s x => .s (c * x)
  | .d ts => .d (T.smulList c ts)

/-- `T.smul` mapped over a list of tensors. -/
def T.smulList (c : ℚ) : List T → List T
  | [] => []
  | t :: ts => T.smul c t :: T.smulList c ts

end

mutual

/-- Same-shape tensor with every entry replaced by `c`
(`tf.ones_like` is `fill 1`, `tf.zeros_like` is `fill 0`). -/
def T.fill (c : ℚ) : T → T
  | .s _ => .s c
  | .d ts => .d (T.fillList c ts)

/-- `T.fill` mapped over a list of tensors. -/
def T.fillList (c : ℚ) : List T → List T
  | [] => []
  | t :: ts => T.fill c t :: T.fillList c ts

end

/-- `tf.ones_like`. -/
def T.ones_like (t : T) : T := T.fill 1 t

/-- `tf.zeros_like`. -/
def T.zeros_like (t : T) : T := T.fill 0 t

mutual

/-- Elementwise subtraction (`x - y` on tensors).  On mismatched
structure the left argument is returned. -/
def T.sub : T → T → T
  | .s x, .s y => .s (x - y)
  | .d xs, .d ys => .d (T.subList xs ys)
  | t, _ => t

/-- Elementwise subtraction of two lists of tensors, pointwise. -/
def T.subList : List T → List T → List T
  | [], _ => []
  | _ :: _, [] => []
  | x :: xs, y :: ys => T.sub x y :: T.subList xs ys

end

mutual

/-- Elementwise absolute value (`tf.abs`). -/
def T.abs : T → T
  | .s x => .s |x|
  | .d ts => .d (T.absList ts)

/-- `T.abs` mapped over a list of tensors. -/
def T.absList : List T → List T
  | [] => []
  | t :: ts => T.abs t :: T.absList ts

end

/-- `tf.rank`: the nesting depth, read along the first entries. -/
def T.rank : T → Nat
  | .s _ => 0
  | .d [] => 1
  | .d (t :: _) => 1 + T.rank t

mutual

/-- `tf.expand_dims(·, axis=-1)`: a new trailing singleton axis, i.e.
every scalar is wrapped in a one-element dimension. -/
def T.expand_dims_last : T → T
  | .s x => .d [.s x]
  | .d ts => .d (T.expand_dims_lastList ts)

/-- `T.expand_dims_last` mapped over a list of tensors. -/
def T.expand_dims_lastList : List T → List T
  | [] => []
  | t :: ts => T.expand_dims_last t :: T.expand_dims_lastList ts

end

/-- All subtensors sitting exactly `k` axes below the root, in row-major
order (for `k = 2` and argument `t[i0]`, these are the `t[i0][i1][i2]`). -/
def T.subtensorsAt : Nat → T → List T
  | 0, t => [t]
  | _ + 1, .s _ => []
  | k + 1, .d ts => ts.foldr (fun t acc => T.subtensorsAt k t ++ acc) []

/-- `tf.add_n`: elementwise sum of a list of tensors. -/
def add_n : List T → T
  | [] => .s 0
  | t :: ts => ts.foldl T.add t

/-- Elementwise mean of a list of same-shape tensors. -/
def T.meanList (ts : List T) : T :=
  T.smul (1 / (ts.length : ℚ)) (add_n ts)

/-- `tf.reduce_mean(t, axis=[1, ..., m])`: axis 0 is kept and, for each
of its entries, the subtensors along the next `m` axes are averaged
elementwise. -/
def reduce_mean_axes_from1 (m : Nat) : T → T
  | .s x => .s x
  | .d ts => .d (ts.map fun ti => T.meanList (T.subtensorsAt m ti))

mutual

/-- All scalar entries of a tensor, in row-major order. -/
def T.scalars : T → List ℚ
  | .s x => [x]
  | .d ts => T.scalarsList ts

/-- All scalar entries of a list of tensors, in row-major order. -/
def T.scalarsList : List T → List ℚ
  | [] => []
  | t :: ts => T.scalars t ++ T.scalarsList ts

end

/-- `tf.reduce_mean(t, axis=None)`: the mean of all scalar entries. -/
def reduce_mean_all (t : T) : T :=
  .s ((T.scalars t).sum / ((T.scalars t).length : ℚ))

end Ashpy

namespace Ashpy

/-- `AdversarialLossG.call` (`gan.py` lines 96-134), with the abstract
per-element loss `fn` standing for `self._fn`: build the discriminator
inputs, run the discriminator, then either (multiscale list output)
`tf.add_n` of the per-scale `reduce_mean(fn(ones_like(d_i), d_i),
axis=[1,2])`, or (single output) `fn(ones_like(d), d)` expanded by two
trailing singleton axes when `rank(d) ≠ 4` and then reduced by
`reduce_mean(axis=[1,2])`. -/
def AdversarialLossG_call (fn : T → T → T) (context : GANContext T)
    (fake condition : T) (training : Bool) : Except String T := do
  let fake_inputs ← get_discriminator_inputs context fake condition training
  match context.discriminator_model fake_inputs training with
  | .inr d_fake =>
      pure (add_n (d_fake.map fun d_fake_i =>
        reduce_mean_axes_from1 2 (fn (T.ones_like d_fake_i) d_fake_i)))
  | .inl d_fake =>
      let value := fn (T.ones_like d_fake) d_fake
      let value := if T.rank d_fake = 4 then value
        else T.expand_dims_last (T.expand_dims_last value)
      pure (reduce_mean_axes_from1 2 value)

/-- `AdversarialLossD.call` (`gan.py` lines 405-447), with the abstract
per-element loss `fn` standing for `self._fn`.  The source branches only
on `isinstance(d_fake, list)` and then uses `d_real` as the same kind;
the mismatched kind (impossible for the models the repository builds,
whose output kind does not depend on the input) is modelled as an
error. -/
def AdversarialLossD_call (fn : T → T → T) (context : GANContext T)
    (fake real condition : T) (training : Bool) : Except String T := do
  let fake_inputs ← get_discriminator_inputs context fake condition training
  let real_inputs ← get_discriminator_inputs context real condition training
  let d_fake := context.discriminator_model fake_inputs training
  let d_real := context.discriminator_model real_inputs training
  match d_fake, d_real with
  | .inr dfs, .inr drs =>
      pure (add_n ((List.zip drs dfs).map fun p =>
        reduce_mean_axes_from1 2 (fn p.1 p.2)))
  | .inl df, .inl dr =>
      let value := fn dr df
      let value := if T.rank df = 4 then value
        else T.expand_dims_last (T.expand_dims_last value)
      pure (reduce_mean_axes_from1 2 value)
  | _, _ => .error "discriminator output kind mismatch between real and fake"

/-- `tf.losses.Reduction` members used by the code. -/
inductive Reduction where
  | AUTO
  | NONE
  | SUM
  | SUM_OVER_BATCH_SIZE
deriving DecidableEq

/-- `GeneratorL1.L1Loss.call` (`gan.py` lines 192-203): pick the axes
from the reduction (`None` for `SUM_OVER_BATCH_SIZE`, `(1, 2, 3)` for
`NONE`, `ValueError` otherwise) and return
`tf.reduce_mean(tf.abs(x - y), axis=axis)`. -/
def L1Loss_call (reduction : Reduction) (x y : T) : Except String T :=
  if reduction = .SUM_OVER_BATCH_SIZE then
    .ok (reduce_mean_all (T.abs (T.sub x y)))
  else if reduction = .NONE then
    .ok (reduce_mean_axes_from1 3 (T.abs (T.sub x y)))
  else
    .error "L1Loss: unhandled reduction type"

/-- `DiscriminatorMinMax.GANLoss` after `__init__` (`gan.py` lines
459-472): the two binary cross-entropy callables it stores. -/
structure GANLoss where
  positive_bce : T → T → T
  negative_bce : T → T → T

/-- `DiscriminatorMinMax.GANLoss.__init__`: `bce` stands for the keras
`tf.losses.BinaryCrossentropy` constructor (from_logits,
label_smoothing, reduction); the positive branch gets the
`label_smoothing` argument, the negative branch gets `0.0`, both get
reduction `NONE`. -/
def GANLoss.init (bce : Bool → ℚ → Reduction → T → T → T)
    (from_logits : Bool) (label_smoothing : ℚ) : GANLoss :=
  { positive_bce := bce from_logits label_smoothing .NONE,
    negative_bce := bce from_logits 0 .NONE }

/-- `DiscriminatorMinMax.GANLoss.call` (`gan.py` lines 483-490):
`0.5 * (positive_bce(ones_like(d_real), d_real) +
negative_bce(zeros_like(d_fake), d_fake))`. -/
def GANLoss.call (l : GANLoss) (d_real d_fake : T) : T :=
  T.smul (1 / 2) (T.add (l.positive_bce (T.ones_like d_real) d_real)
    (l.negative_bce (T.zeros_like d_fake) d_fake))

end Ashpy

namespace Ashpy

/-- `PatchDiscriminator` after `__init__`
(`discriminators.py` lines 37-82): the constructor arguments it stores
and the final `self.inputs = [1, 1]` assignment.  The layer classes
(`non_linearity`, `normalization_layer`) stay abstract types; the keras
layer stack built by the superclass is outside the sources and not
needed by the claims. -/
structure PatchDiscriminator (ν η : Type) where
  input_res : Nat
  min_res : Nat
  kernel_size : Nat
  initial_filters : Nat
  filters_cap : Nat
  use_dropout : Bool
  dropout_prob : ℚ
  non_linearity : ν
  normalization_layer : η
  use_attention : Bool
  inputs : List Nat

/-- `PatchDiscriminator.__init__`: store the hyper-parameters and set
`self.inputs = [1, 1]` (line 82). -/
def PatchDiscriminator.init {ν η : Type} (input_res min_res kernel_size
    initial_filters filters_cap : Nat) (use_dropout : Bool)
    (dropout_prob : ℚ) (non_linearity : ν) (normalization_layer : η)
    (use_attention : Bool) : PatchDiscriminator ν η :=
  { input_res, min_res, kernel_size, initial_filters, filters_cap,
    use_dropout, dropout_prob, non_linearity, normalization_layer,
    use_attention, inputs := [1, 1] }

/-- `MultiScaleDiscriminator` after `__init__`
(`discriminators.py` lines 161-215): the stored hyper-parameters, the
list of internal `PatchDiscriminator`s and the final
`self.inputs = [1, 1]` assignment.  The `AvgPool2D` subsampling layer is
an external keras layer; it is the `subsampling` parameter of
`MultiScaleDiscriminator_call`. -/
structure MultiScaleDiscriminator (ν η : Type) where
  n_discriminators : Nat
  input_res : Nat
  min_res : Nat
  kernel_size : Nat
  initial_filters : Nat
  filters_cap : Nat
  dropout_prob : ℚ
  non_linearity : ν
  use_dropout : Bool
  use_attention : Bool
  normalization_layer : η
  discriminators : List (PatchDiscriminator ν η)
  inputs : List Nat

/-- `MultiScaleDiscriminator.build_discriminator`
(`discriminators.py` lines 217-230): a `PatchDiscriminator` with the
given input resolution and the other hyper-parameters of `self`. -/
def MultiScaleDiscriminator.build_discriminator {ν η : Type}
    (self : MultiScaleDiscriminator ν η) (input_res : Nat) :
    PatchDiscriminator ν η :=
  PatchDiscriminator.init input_res self.min_res self.kernel_size
    self.initial_filters self.filters_cap self.use_dropout
    self.dropout_prob self.non_linearity self.normalization_layer
    self.use_attention

/-- `MultiScaleDiscriminator.__init__`: store the hyper-parameters, then
build `n_discriminators` discriminators where the `i`-th gets input
resolution `int(input_res / (2 ** i))` (integer part of the division,
exact arithmetic standing for Python float division), then set
`self.inputs = [1, 1]`. -/
def MultiScaleDiscriminator.init {ν η : Type} (input_res min_res
    kernel_size initial_filters filters_cap : Nat) (use_dropout : Bool)
    (dropout_prob : ℚ) (non_linearity : ν) (normalization_layer : η)
    (use_attention : Bool) (n_discriminators : Nat) :
    MultiScaleDiscriminator ν η :=
  let self0 : MultiScaleDiscriminator ν η :=
    { n_discriminators, input_res, min_res, kernel_size, initial_filters,
      filters_cap, dropout_prob, non_linearity, use_dropout, use_attention,
      normalization_layer, discriminators := [], inputs := [] }
  { self0 with
    discriminators := (List.range n_discriminators).map fun i =>
      self0.build_discriminator (input_res / 2 ^ i),
    inputs := [1, 1] }

/-- The loop body of `MultiScaleDiscriminator.call`
(`discriminators.py` lines 246-264), with each internal discriminator
abstracted to a function from `(x_i, condition_i, training)` to its
`(out, feat)` pair: accumulate outputs and features, subsampling the
inputs after every discriminator except the last. -/
def msLoop {α : Type} (subsampling : α → α) (training : Bool) :
    List (α → α → Bool → α × List α) → α → α → List α × List α
  | [], _, _ => ([], [])
  | [dmodel], x_i, condition_i =>
      let r := dmodel x_i condition_i training
      ([r.1], r.2)
  | dmodel :: d2 :: ds, x_i, condition_i =>
      let r := dmodel x_i condition_i training
      let rest := msLoop subsampling training (d2 :: ds)
        (subsampling x_i) (subsampling condition_i)
      (r.1 :: rest.1, r.2 ++ rest.2)

/-- `MultiScaleDiscriminator.call` (`discriminators.py` lines 232-269):
run the loop over the internal discriminators and return the pair
`(outs, features)` when `return_features` and `outs` alone otherwise. -/
def MultiScaleDiscriminator_call {α : Type}
    (discriminators : List (α → α → Bool → α × List α))
    (subsampling : α → α) (inputs : α × α)
    (training return_features : Bool) :
    (List α × List α) ⊕ List α :=
  let r := msLoop subsampling training discriminators inputs.1 inputs.2
  if return_features then .inl (r.1, r.2) else .inr r.1

end Ashpy

namespace Ashpy

/-- C1: with no `encoder_model`, `get_discriminator_inputs` returns the
two-element list `[fake_or_real, condition]` exactly when the
discriminator model declares 2 inputs, and the bare tensor `fake_or_real`
(not wrapped in a list) for every other input count. -/
theorem c1_get_discriminator_inputs_no_encoder {α : Type}
    (ctx : GANContext α) (fake_or_real condition : α) (training : Bool)
    (henc : ctx.encoder_model = none) :
    get_discriminator_inputs ctx fake_or_real condition training =
      if ctx.discriminator_model_inputs.length = 2 then
        .ok (.list [fake_or_real, condition])
      else
        .ok (.single fake_or_real) := by
  unfold get_discriminator_inputs
  rw [henc]

/-- Closed-form instance of `c1_get_discriminator_inputs_no_encoder`. -/
theorem c1_witness :
    get_discriminator_inputs
      (⟨[1, 1], fun _ _ => Sum.inl 0, none⟩ : GANContext Nat) 7 9 true =
      .ok (.list [7, 9]) := by
  have h := c1_get_discriminator_inputs_no_encoder
    (⟨[1, 1], fun _ _ => Sum.inl 0, none⟩ : GANContext Nat) 7 9 true rfl
  simpa using h

/-- C2: with an `encoder_model`, `get_discriminator_inputs` returns
`[fake_or_real, encoder(fake_or_real)]` for 2 declared inputs,
`[fake_or_real, encoder(fake_or_real), condition]` for 3 declared inputs,
and raises `ValueError` for every other declared input count; the
condition is included only in the 3-input case. -/
theorem c2_get_discriminator_inputs_encoder {α : Type}
    (ctx : GANContext α) (fake_or_real condition : α) (training : Bool)
    (enc : α → Bool → α) (henc : ctx.encoder_model = some enc) :
    (ctx.discriminator_model_inputs.length = 2 →
      get_discriminator_inputs ctx fake_or_real condition training =
        .ok (.list [fake_or_real, enc fake_or_real training])) ∧
    (ctx.discriminator_model_inputs.length = 3 →
      get_discriminator_inputs ctx fake_or_real condition training =
        .ok (.list [fake_or_real, enc fake_or_real training, condition])) ∧
    (ctx.discriminator_model_inputs.length ≠ 2 →
      ctx.discriminator_model_inputs.length ≠ 3 →
      ∃ msg, get_discriminator_inputs ctx fake_or_real condition training =
        .error msg) := by
  unfold get_discriminator_inputs
  rw [henc]
  refine ⟨fun h2 => by simp [h2], fun h3 => ?_, fun h2 h3 => ?_⟩
  · have : ctx.discriminator_model_inputs.length ≠ 2 := by omega
    simp [h3, this]
  · exact ⟨"Context has encoder_model, but generator has wrong input count",
      by simp [h2, h3]⟩

/-- Closed-form instance of `c2_get_discriminator_inputs_encoder`: a
3-input discriminator with an encoder gets the condition appended. -/
theorem c2_witness :
    get_discriminator_inputs
      (⟨[1, 1, 1], fun _ _ => Sum.inl 0, some (fun x _ => x + 1)⟩ :
        GANContext Nat) 7 9 true =
      .ok (.list [7, 8, 9]) := by
  have h := (c2_get_discriminator_inputs_encoder
    (⟨[1, 1, 1], fun _ _ => Sum.inl 0, some (fun x _ => x + 1)⟩ :
      GANContext Nat) 7 9 true (fun x _ => x + 1) rfl).2.1 rfl
  simpa using h

/-- C4: the two adversarial-loss factories accept the enum member or its
integer value and reject everything else with `ValueError`. -/
theorem c4_adversarial_loss_factories (a : LossTypeArg) :
    (get_adversarial_loss_generator a = .ok .GeneratorBCE ↔
      (a = .enum .GAN ∨ a = .int 0)) ∧
    (get_adversarial_loss_generator a = .ok .GeneratorLSGAN ↔
      (a = .enum .LSGAN ∨ a = .int 1)) ∧
    (get_adversarial_loss_discriminator a = .ok .DiscriminatorMinMax ↔
      (a = .enum .GAN ∨ a = .int 0)) ∧
    (get_adversarial_loss_discriminator a = .ok .DiscriminatorLSGAN ↔
      (a = .enum .LSGAN ∨ a = .int 1)) ∧
    ((∃ msg, get_adversarial_loss_generator a = .error msg) ↔
      ¬(a = .enum .GAN ∨ a = .int 0 ∨ a = .enum .LSGAN ∨ a = .int 1)) ∧
    ((∃ msg, get_adversarial_loss_discriminator a = .error msg) ↔
      ¬(a = .enum .GAN ∨ a = .int 0 ∨ a = .enum .LSGAN ∨ a = .int 1)) := by
  unfold get_adversarial_loss_generator get_adversarial_loss_discriminator
  rcases a with t | n
  · cases t <;> simp [AdversarialLossType.value]
  · by_cases h0 : n = 0
    · simp [h0, AdversarialLossType.value]
    · by_cases h1 : n = 1
      · simp [h0, h1, AdversarialLossType.value]
      · simp [h0, h1, AdversarialLossType.value]

/-- C3: `Pix2PixLoss` (resp. `Pix2PixLossSemantic`) evaluates to
`GeneratorL1` (resp. `CategoricalCrossEntropy`) times `l1_loss_weight`
(resp. `cross_entropy_weight`) plus the selected adversarial generator
loss times `adversarial_loss_weight`, with `FeatureMatchingLoss` times
`feature_matching_weight` as a third summand exactly when
`use_feature_matching_loss` is true. -/
theorem c3_pix2pix_weighted_sum (w1 w2 w3 : ℚ) (t : LossTypeArg)
    (ufm : Bool) (env : BaseLoss → ℚ) (cls : GenLossClass)
    (h : get_adversarial_loss_generator t = .ok cls) :
    (Pix2PixLoss w1 w2 w3 t ufm).map (evalExecutor env) =
      .ok (w1 * env .GeneratorL1 + w2 * env cls.toBaseLoss +
        (if ufm then w3 * env .FeatureMatchingLoss else 0)) ∧
    (Pix2PixLossSemantic w1 w2 w3 t ufm).map (evalExecutor env) =
      .ok (w1 * env .CategoricalCrossEntropy + w2 * env cls.toBaseLoss +
        (if ufm then w3 * env .FeatureMatchingLoss else 0)) := by
  unfold Pix2PixLoss Pix2PixLossSemantic
  rw [h]
  cases ufm <;>
    simp [Except.map, Except.bind, bind, pure, Except.pure, evalExecutor,
      evalExecutorList, GenLossClass.instantiate]
  all_goals constructor <;> ring

/-- Closed-form instance of `c3_pix2pix_weighted_sum`: with
`env ≡ 1`, weights `2, 5, 7` and feature matching on, `Pix2PixLoss`
evaluates to `2 + 5 + 7 = 14`. -/
theorem c3_witness :
    (Pix2PixLoss 2 5 7 (.enum .GAN) true).map (evalExecutor fun _ => 1) =
      .ok 14 := by
  have h := (c3_pix2pix_weighted_sum 2 5 7 (.enum .GAN) true
    (fun _ => 1) .GeneratorBCE rfl).1
  rw [h]
  norm_num [GenLossClass.toBaseLoss]

/-- The outputs list built by `msLoop` has one entry per internal
discriminator. -/
theorem msLoop_fst_length {α : Type} (subsampling : α → α)
    (training : Bool) :
    ∀ (ds : List (α → α → Bool → α × List α)) (x c : α),
      (msLoop subsampling training ds x c).1.length = ds.length := by
  intro ds
  induction ds with
  | nil => intro x c; simp [msLoop]
  | cons dmodel ds ih =>
      intro x c
      cases ds with
      | nil => simp [msLoop]
      | cons d2 ds2 => simp [msLoop, ih]

/-- The `i`-th output of the `msLoop` of `MultiScaleDiscriminator.call`
is the `i`-th discriminator applied to the inputs subsampled `i`
times. -/
theorem msLoop_fst_get {α : Type} (subsampling : α → α)
    (training : Bool) :
    ∀ (ds : List (α → α → Bool → α × List α)) (x c : α) (i : Nat),
      (msLoop subsampling training ds x c).1[i]? =
        ds[i]?.map fun dmodel =>
          (dmodel (subsampling^[i] x) (subsampling^[i] c) training).1 := by
  intro ds
  induction ds with
  | nil => intro x c i; simp [msLoop]
  | cons dmodel ds ih =>
      intro x c i
      cases ds with
      | nil =>
          cases i with
          | zero => simp [msLoop]
          | succ j => simp [msLoop]
      | cons d2 ds2 =>
          cases i with
          | zero => simp [msLoop]
          | succ j =>
              simp only [msLoop, List.getElem?_cons_succ,
                ih (subsampling x) (subsampling c) j,
                Function.iterate_succ_apply]

/-- C5: `MultiScaleDiscriminator.call` produces exactly
`n_discriminators` outputs, the `i`-th being the `i`-th internal
discriminator applied to the two inputs each subsampled `i` times by
average pooling, and it returns the `(outputs, features)` pair exactly
when `return_features` is true and the outputs list alone otherwise. -/
theorem c5_multiscale_call_outputs {α : Type}
    (discriminators : List (α → α → Bool → α × List α))
    (subsampling : α → α) (x condition : α) (training : Bool)
    (n_discriminators : Nat)
    (hn : discriminators.length = n_discriminators) :
    (msLoop subsampling training discriminators x condition).1.length =
      n_discriminators ∧
    (∀ i : Nat,
      (msLoop subsampling training discriminators x condition).1[i]? =
        discriminators[i]?.map fun dmodel =>
          (dmodel (subsampling^[i] x) (subsampling^[i] condition)
            training).1) ∧
    MultiScaleDiscriminator_call discriminators subsampling (x, condition)
        training true =
      .inl (msLoop subsampling training discriminators x condition) ∧
    MultiScaleDiscriminator_call discriminators subsampling (x, condition)
        training false =
      .inr (msLoop subsampling training discriminators x condition).1 := by
  refine ⟨hn ▸ msLoop_fst_length subsampling training discriminators
      x condition,
    fun i => msLoop_fst_get subsampling training discriminators
      x condition i, ?_, ?_⟩
  · simp [MultiScaleDiscriminator_call]
  · simp [MultiScaleDiscriminator_call]

/-- Closed-form instance of `c5_multiscale_call_outputs`: with two
discriminators and subsampling `(· + 10)`, the second output sees both
inputs subsampled once. -/
theorem c5_witness :
    (msLoop (· + 10) true
      [fun x c _ => (x + c, [x]), fun x c _ => (x * c, [c])]
      1 2).1[1]? = some 132 := by
  have h := (c5_multiscale_call_outputs
    [fun x c _ => (x + c, [x]), fun x c _ => (x * c, [c])]
    (· + 10) 1 2 true 2 rfl).2.1 1
  simpa using h

/-- C6: in `AdversarialLossG.call` and `AdversarialLossD.call`, a list
(multiscale) discriminator output gives the sum over all scales of the
per-scale loss-function value reduced by the mean over axes 1 and 2; a
single-tensor output gives the loss-function value, expanded by two
trailing singleton axes whenever the rank of the discriminator output is
not 4, reduced by the mean over axes 1 and 2. -/
theorem c6_adversarial_call_reduction (fn : T → T → T)
    (ctx : GANContext T) (fake real condition : T) (training : Bool) :
    (∀ ins ds,
      get_discriminator_inputs ctx fake condition training = .ok ins →
      ctx.discriminator_model ins training = .inr ds →
      AdversarialLossG_call fn ctx fake condition training =
        .ok (add_n (ds.map fun di =>
          reduce_mean_axes_from1 2 (fn (T.ones_like di) di)))) ∧
    (∀ ins dt,
      get_discriminator_inputs ctx fake condition training = .ok ins →
      ctx.discriminator_model ins training = .inl dt →
      AdversarialLossG_call fn ctx fake condition training =
        .ok (reduce_mean_axes_from1 2
          (if T.rank dt = 4 then fn (T.ones_like dt) dt
           else T.expand_dims_last (T.expand_dims_last
             (fn (T.ones_like dt) dt))))) ∧
    (∀ fins rins dfs drs,
      get_discriminator_inputs ctx fake condition training = .ok fins →
      get_discriminator_inputs ctx real condition training = .ok rins →
      ctx.discriminator_model fins training = .inr dfs →
      ctx.discriminator_model rins training = .inr drs →
      AdversarialLossD_call fn ctx fake real condition training =
        .ok (add_n ((List.zip drs dfs).map fun p =>
          reduce_mean_axes_from1 2 (fn p.1 p.2)))) ∧
    (∀ fins rins df dr,
      get_discriminator_inputs ctx fake condition training = .ok fins →
      get_discriminator_inputs ctx real condition training = .ok rins →
      ctx.discriminator_model fins training = .inl df →
      ctx.discriminator_model rins training = .inl dr →
      AdversarialLossD_call fn ctx fake real condition training =
        .ok (reduce_mean_axes_from1 2
          (if T.rank df = 4 then fn dr df
           else T.expand_dims_last (T.expand_dims_last (fn dr df))))) := by
  refine ⟨?_, ?_, ?_, ?_⟩
  · intro ins ds h1 h2
    unfold AdversarialLossG_call
    simp [h1, h2, Except.bind, bind, pure, Except.pure]
  · intro ins dt h1 h2
    unfold AdversarialLossG_call
    simp [h1, h2, Except.bind, bind, pure, Except.pure]
  · intro fins rins dfs drs h1 h2 h3 h4
    unfold AdversarialLossD_call
    simp [h1, h2, h3, h4, Except.bind, bind, pure, Except.pure]
  · intro fins rins df dr h1 h2 h3 h4
    unfold AdversarialLossD_call
    simp [h1, h2, h3, h4, Except.bind, bind, pure, Except.pure]

/-- Closed-form instance of `c6_adversarial_call_reduction`: a
multiscale discriminator that always outputs `[0]` under a conditional
context, with `fn` elementwise addition, gives generator loss `1`. -/
theorem c6_witness :
    AdversarialLossG_call T.add
      (⟨[1, 1], fun _ _ => Sum.inr [T.s 0], none⟩ : GANContext T)
      (T.s 3) (T.s 4) true = .ok (T.s 1) := by
  have h := (c6_adversarial_call_reduction T.add
    (⟨[1, 1], fun _ _ => Sum.inr [T.s 0], none⟩ : GANContext T)
    (T.s 3) (T.s 3) (T.s 4) true).1 (.list [T.s 3, T.s 4]) [T.s 0]
    rfl rfl
  rw [h]
  norm_num [add_n, T.add, T.ones_like, T.fill, reduce_mean_axes_from1]

/-- C9: `DiscriminatorMinMax.GANLoss.call` is `0.5` times the sum of the
binary cross-entropy between a tensor of ones and `d_real` and the
binary cross-entropy between a tensor of zeros and `d_fake`; the
`label_smoothing` constructor argument reaches only the real (positive)
branch, the fake (negative) branch always gets label smoothing `0`. -/
theorem c9_ganloss_label_smoothing
    (bce : Bool → ℚ → Reduction → T → T → T) (from_logits : Bool)
    (label_smoothing : ℚ) (d_real d_fake : T) :
    (GANLoss.init bce from_logits label_smoothing).call d_real d_fake =
      T.smul (1 / 2) (T.add
        (bce from_logits label_smoothing .NONE (T.ones_like d_real)
          d_real)
        (bce from_logits 0 .NONE (T.zeros_like d_fake) d_fake)) := rfl

/-- C10: `GeneratorL1.L1Loss.call` is the mean absolute difference of
its arguments reduced over all axes for `SUM_OVER_BATCH_SIZE`, reduced
over axes `(1, 2, 3)` for `NONE`, and a `ValueError` for every other
reduction. -/
theorem c10_l1loss_reduction_cases (x y : T) :
    L1Loss_call .SUM_OVER_BATCH_SIZE x y =
      .ok (reduce_mean_all (T.abs (T.sub x y))) ∧
    L1Loss_call .NONE x y =
      .ok (reduce_mean_axes_from1 3 (T.abs (T.sub x y))) ∧
    ∀ reduction : Reduction, reduction ≠ .SUM_OVER_BATCH_SIZE →
      reduction ≠ .NONE →
      L1Loss_call reduction x y =
        .error "L1Loss: unhandled reduction type" := by
  refine ⟨rfl, rfl, fun reduction h1 h2 => ?_⟩
  simp [L1Loss_call, h1, h2]

/-- Closed-form instance of `c10_l1loss_reduction_cases`: the `SUM`
reduction is rejected. -/
theorem c10_witness :
    L1Loss_call .SUM (T.s 1) (T.s 2) =
      .error "L1Loss: unhandled reduction type" := by
  exact (c10_l1loss_reduction_cases (T.s 1) (T.s 2)).2.2 .SUM
    (by simp) (by simp)

/-- C7: `MultiScaleDiscriminator.__init__` builds exactly
`n_discriminators` `PatchDiscriminator`s, the `i`-th with input
resolution `int(input_res / 2 ** i)` and all other hyper-parameters
identical across the instances. -/
theorem c7_multiscale_constructor {ν η : Type}
    (input_res min_res kernel_size initial_filters filters_cap : Nat)
    (use_dropout : Bool) (dropout_prob : ℚ) (non_linearity : ν)
    (normalization_layer : η) (use_attention : Bool)
    (n_discriminators : Nat) :
    (MultiScaleDiscriminator.init input_res min_res kernel_size
      initial_filters filters_cap use_dropout dropout_prob non_linearity
      normalization_layer use_attention
      n_discriminators).discriminators.length = n_discriminators ∧
    ∀ i, i < n_discriminators →
      (MultiScaleDiscriminator.init input_res min_res kernel_size
        initial_filters filters_cap use_dropout dropout_prob non_linearity
        normalization_layer use_attention
        n_discriminators).discriminators[i]? =
        some (PatchDiscriminator.init (input_res / 2 ^ i) min_res
          kernel_size initial_filters filters_cap use_dropout dropout_prob
          non_linearity normalization_layer use_attention) := by
  constructor
  · simp [MultiScaleDiscriminator.init]
  · intro i hi
    simp [MultiScaleDiscriminator.init,
      MultiScaleDiscriminator.build_discriminator, List.getElem?_map,
      List.getElem?_range, hi]

/-- Closed-form instance of `c7_multiscale_constructor`: with input
resolution 100 and 3 discriminators, the third one gets resolution
`100 / 4 = 25`. -/
theorem c7_witness :
    (MultiScaleDiscriminator.init (ν := Unit) (η := Unit) 100 4 3 64 512
      true (3 / 10) () () false 3).discriminators[2]? =
      some (PatchDiscriminator.init 25 4 3 64 512 true (3 / 10) () ()
        false) := by
  have h := (c7_multiscale_constructor (ν := Unit) (η := Unit) 100 4 3 64
    512 true (3 / 10) () () false 3).2 2 (by norm_num)
  norm_num at h
  exact h

/-- C8: every freshly constructed `PatchDiscriminator` and
`MultiScaleDiscriminator` has `inputs = [1, 1]`, so its length is 2 and
`get_discriminator_inputs` always takes the conditional (two-input)
branch for these models, with or without an encoder. -/
theorem c8_inputs_hack_two_inputs {ν η α : Type}
    (input_res min_res kernel_size initial_filters filters_cap : Nat)
    (use_dropout : Bool) (dropout_prob : ℚ) (non_linearity : ν)
    (normalization_layer : η) (use_attention : Bool)
    (n_discriminators : Nat) :
    (PatchDiscriminator.init input_res min_res kernel_size
      initial_filters filters_cap use_dropout dropout_prob non_linearity
      normalization_layer use_attention).inputs = [1, 1] ∧
    (MultiScaleDiscriminator.init input_res min_res kernel_size
      initial_filters filters_cap use_dropout dropout_prob non_linearity
      normalization_layer use_attention n_discriminators).inputs =
      [1, 1] ∧
    (PatchDiscriminator.init input_res min_res kernel_size
      initial_filters filters_cap use_dropout dropout_prob non_linearity
      normalization_layer use_attention).inputs.length = 2 ∧
    (MultiScaleDiscriminator.init input_res min_res kernel_size
      initial_filters filters_cap use_dropout dropout_prob non_linearity
      normalization_layer use_attention
      n_discriminators).inputs.length = 2 ∧
    (∀ (dm : DInputs α → Bool → α ⊕ List α) (fake_or_real condition : α)
      (training : Bool),
      get_discriminator_inputs
        ⟨(PatchDiscriminator.init input_res min_res kernel_size
          initial_filters filters_cap use_dropout dropout_prob
          non_linearity normalization_layer use_attention).inputs,
          dm, none⟩ fake_or_real condition training =
        .ok (.list [fake_or_real, condition])) ∧
    (∀ (dm : DInputs α → Bool → α ⊕ List α) (enc : α → Bool → α)
      (fake_or_real condition : α) (training : Bool),
      get_discriminator_inputs
        ⟨(MultiScaleDiscriminator.init input_res min_res kernel_size
          initial_filters filters_cap use_dropout dropout_prob
          non_linearity normalization_layer use_attention
          n_discriminators).inputs, dm, some enc⟩ fake_or_real condition
          training =
        .ok (.list [fake_or_real, enc fake_or_real training])) :=
  ⟨rfl, rfl, rfl, rfl, fun _ _ _ _ => rfl, fun _ _ _ _ _ => rfl⟩

end Ashpy
